import Mathlib

/-!
Shallow embedding of the `reserve` backend (tax-reserve calculator).

Source layout:
* `src/backend/app/core/tax_calculator.py` — bracket table, federal-rate
  inference and `calculate_tax_reserve`;
* `src/backend/app/models/tax_models.py` — pydantic request/response schemas
  and the `normalize_state` validator;
* `src/backend/app/api/tax.py` — the `/state-rates` listing endpoint.

Monetary values are modelled as rationals (`ℚ`); Python's `round(x, 2)` is
modelled as decimal rounding half-to-even at two decimals.  The static state
tables live in `app/utils/constants.py`, which is not part of the sources
here, so the state-rate table and the display-name table are parameters of
the embedded functions (the spec describes them as immutable configuration).
-/

/-- Python's `round` tie-breaking: round to the nearest integer, ties to the
even integer (banker's rounding). -/
def roundHalfToEven (q : ℚ) : ℤ :=
  let f : ℤ := ⌊q⌋
  if q - f < 1 / 2 then f
  else if 1 / 2 < q - f then f + 1
  else if f % 2 = 0 then f else f + 1

/-- `_round_currency` from `tax_calculator.py`: `round(value, 2)`. -/
def round_currency (value : ℚ) : ℚ :=
  (roundHalfToEven (value * 100) : ℚ) / 100

/-- `SELF_EMPLOYMENT_TAX_RATE = 0.153` from `tax_calculator.py`. -/
def SELF_EMPLOYMENT_TAX_RATE : ℚ := 153 / 1000

/-- A federal-bracket upper threshold: a finite number or `float("inf")`. -/
inductive FedThreshold where
  | finite (value : ℚ)
  | inf
deriving DecidableEq, Repr

/-- The comparison `annual_income_estimate <= threshold` performed by the
loop in `infer_federal_rate`; every rational is `<= float("inf")`. -/
def incomeLeThreshold (income : ℚ) : FedThreshold → Bool
  | .finite v => income ≤ v
  | .inf => true

/-- `FEDERAL_BRACKETS` from `tax_calculator.py`: `(threshold, rate)` pairs in
ascending threshold order, last threshold `float("inf")`. -/
def FEDERAL_BRACKETS : List (FedThreshold × ℚ) :=
  [(.finite 11000, 10 / 100), (.finite 44000, 12 / 100),
   (.finite 95000, 22 / 100), (.inf, 24 / 100)]

/-- The `for threshold, rate in FEDERAL_BRACKETS` loop body of
`infer_federal_rate`: the rate of the first bracket whose threshold is at
least the income, `none` when no bracket matches. -/
def findBracketRate (income : ℚ) : List (FedThreshold × ℚ) → Option ℚ
  | [] => none
  | (threshold, rate) :: rest =>
      if incomeLeThreshold income threshold then some rate
      else findBracketRate income rest

/-- `infer_federal_rate` from `tax_calculator.py`: scan the brackets and
return the first matching rate; the post-loop defensive default is
`FEDERAL_BRACKETS[-1][1]`. -/
def infer_federal_rate (annual_income_estimate : ℚ) : ℚ :=
  match findBracketRate annual_income_estimate FEDERAL_BRACKETS with
  | some rate => rate
  | none => (FEDERAL_BRACKETS.getLast (by decide)).2

/-- Modelled from the spec: `DISCLAIMER` is defined in
`app/utils/constants.py`, which is not among the sources; the spec only says
it is a fixed static string attached verbatim to every result, so its exact
text is irrelevant here and any fixed string is a faithful model. -/
def DISCLAIMER : String := "Estimates only; not tax advice."

/-- `TaxCalculationRequest` from `tax_models.py` (field values after
validation). -/
structure TaxCalculationRequest where
  amount : ℚ
  state : String
  federal_rate : Option ℚ
  annual_income_estimate : Option ℚ
deriving DecidableEq, Repr

/-- `TaxCalculationResponse` from `tax_models.py`. -/
structure TaxCalculationResponse where
  gross_income : ℚ
  self_employment_tax : ℚ
  federal_tax : ℚ
  state_tax : ℚ
  recommended_reserve : ℚ
  usable_cash : ℚ
  disclaimer : String
deriving DecidableEq, Repr

/-- `StateTaxRate` from `tax_models.py`: one row of the state listing. -/
structure StateTaxRate where
  code : String
  name : String
  rate : ℚ
deriving DecidableEq, Repr

/-- Python's `str.upper()` on the character sequence of a string.  (For the
ASCII state codes at hand this agrees with full Unicode uppercasing.) -/
def pyUpper (s : String) : String :=
  String.mk (s.data.map Char.toUpper)

/-- Python's `str.strip()`: drop whitespace from both ends of the string. -/
def pyStrip (s : String) : String :=
  String.mk (((s.data.dropWhile Char.isWhitespace).reverse.dropWhile
    Char.isWhitespace).reverse)

/-- The `normalize_state` validator from `tax_models.py`:
`value.upper().strip()`. -/
def normalize_state (value : String) : String :=
  pyStrip (pyUpper value)

/-- Pydantic construction of `TaxCalculationRequest`: the schema range checks
(`amount >= 0`, `federal_rate` in `[0, 1]`, `annual_income_estimate >= 0`)
and the `normalize_state` validator applied to `state`; `none` models a
pydantic `ValidationError`. -/
def mkTaxCalculationRequest (amount : ℚ) (state : String)
    (federal_rate annual_income_estimate : Option ℚ) : Option TaxCalculationRequest :=
  if amount < 0 then none
  else if federal_rate.any (fun r => decide (r < 0) || decide (1 < r)) then none
  else if annual_income_estimate.any (fun e => decide (e < 0)) then none
  else some
    { amount := amount
      state := normalize_state state
      federal_rate := federal_rate
      annual_income_estimate := annual_income_estimate }

/-- `calculate_tax_reserve` from `tax_calculator.py`.  `STATE_TAX_RATES` is
the configuration dict from `app/utils/constants.py` (not among the sources),
passed here as an association list; `dict.get(key, 0.0)` becomes
`(lookup key).getD 0`.  `Except.error` models the raised `ValueError`. -/
def calculate_tax_reserve (STATE_TAX_RATES : List (String × ℚ))
    (payload : TaxCalculationRequest) : Except String TaxCalculationResponse :=
  if payload.amount < 0 then
    .error "Income amount cannot be negative."
  else
    let federal_rate : ℚ :=
      match payload.federal_rate with
      | some r => r
      | none =>
          match payload.annual_income_estimate with
          | some est => infer_federal_rate est
          | none => (FEDERAL_BRACKETS.getLast (by decide)).2
    let state_rate : ℚ := (STATE_TAX_RATES.lookup payload.state).getD 0
    let self_employment_tax := round_currency (payload.amount * SELF_EMPLOYMENT_TAX_RATE)
    let federal_tax := round_currency (payload.amount * federal_rate)
    let state_tax := round_currency (payload.amount * state_rate)
    let recommended_reserve := round_currency (self_employment_tax + federal_tax + state_tax)
    let usable_cash := round_currency (payload.amount - recommended_reserve)
    .ok
      { gross_income := round_currency payload.amount
        self_employment_tax := self_employment_tax
        federal_tax := federal_tax
        state_tax := state_tax
        recommended_reserve := recommended_reserve
        usable_cash := usable_cash
        disclaimer := DISCLAIMER }

/-- `list_state_tax_rates` from `api/tax.py`: map the state-rate table to
`{code, name, rate}` rows (display name defaulting to the code) and sort by
name.  Python's `list.sort` is a stable merge sort. -/
def list_state_tax_rates (STATE_TAX_RATES : List (String × ℚ))
    (STATE_DISPLAY_NAMES : List (String × String)) : List StateTaxRate :=
  let states := STATE_TAX_RATES.map (fun cr =>
    { code := cr.1
      name := (STATE_DISPLAY_NAMES.lookup cr.1).getD cr.1
      rate := cr.2 : StateTaxRate })
  states.mergeSort (fun a b => a.name ≤ b.name)

/-! Helper lemmas shared by the claim theorems. -/

/-- Closed form of `infer_federal_rate` as a chain of threshold tests. -/
lemma infer_federal_rate_eq (e : ℚ) :
    infer_federal_rate e =
      if e ≤ 11000 then 10 / 100 else if e ≤ 44000 then 12 / 100
      else if e ≤ 95000 then 22 / 100 else 24 / 100 := by
  simp only [infer_federal_rate, findBracketRate, FEDERAL_BRACKETS, incomeLeThreshold]
  split_ifs <;> simp_all

/-- Rounding an integer-valued rational is the identity. -/
lemma roundHalfToEven_intCast (n : ℤ) : roundHalfToEven (n : ℚ) = n := by
  simp [roundHalfToEven]

/-- Currency rounding fixes zero. -/
lemma round_currency_zero : round_currency 0 = 0 := by
  norm_num [round_currency, roundHalfToEven]

/-- Currency rounding is idempotent. -/
lemma round_currency_idem (x : ℚ) :
    round_currency (round_currency x) = round_currency x := by
  unfold round_currency
  rw [div_mul_cancel₀ _ (by norm_num : (100 : ℚ) ≠ 0), roundHalfToEven_intCast]

/-- Restated from the spec's words, for comparison with the implementation:
the rate of the first bracket, in ascending threshold order, whose threshold
is greater than or equal to the estimate (inclusive upper bounds). -/
def firstBracketRateSpec (estimate : ℚ) : ℚ :=
  if estimate ≤ 11000 then 10 / 100
  else if estimate ≤ 44000 then 12 / 100
  else if estimate ≤ 95000 then 22 / 100
  else 24 / 100

/-- The last federal bracket carries rate 0.24. -/
lemma federal_brackets_last :
    (FEDERAL_BRACKETS.getLast (by decide)).2 = 24 / 100 := by
  simp [FEDERAL_BRACKETS]

/-- Concrete state-rate table for the spec's worked example: `CA` present
with rate 0.0, as the claim stipulates. -/
def exampleStateRates : List (String × ℚ) := [("CA", 0)]

/-- The spec's worked example input: amount 1000, state `CA`, no explicit
federal rate, annual income estimate 50000. -/
def exampleRequest : TaxCalculationRequest :=
  { amount := 1000, state := "CA", federal_rate := none, annual_income_estimate := some 50000 }

/-- Evaluation of the worked example: estimate 50000 falls in the `≤ 95000`
bracket, so the inferred rate is 0.22 and the federal tax is 220.00. -/
lemma calculate_example_eval :
    calculate_tax_reserve exampleStateRates exampleRequest =
      Except.ok
        { gross_income := 1000, self_employment_tax := 153, federal_tax := 220,
          state_tax := 0, recommended_reserve := 373, usable_cash := 627,
          disclaimer := DISCLAIMER } := by
  rw [calculate_tax_reserve]
  norm_num [exampleRequest, exampleStateRates, infer_federal_rate_eq,
    SELF_EMPLOYMENT_TAX_RATE, round_currency, roundHalfToEven, List.lookup]

/-- C1: the claim asserts that for amount 1000, state `CA` (rate 0.0),
estimate 50000 and no explicit federal rate, the inferred federal rate is
0.24 with federal tax 240.00, reserve 393.00 and usable cash 607.00.  This
is false: the estimate 50000 falls in the `≤ 95000` bracket, whose rate is
0.22, so the inferred rate is not 0.24 (and the response carries federal
tax 220.00, reserve 373.00, usable cash 627.00, refuting the rest). -/
theorem C1_counterexample :
    ¬ (infer_federal_rate 50000 = 24 / 100 ∧
       calculate_tax_reserve exampleStateRates exampleRequest =
         Except.ok
           { gross_income := 1000, self_employment_tax := 153, federal_tax := 240,
             state_tax := 0, recommended_reserve := 393, usable_cash := 607,
             disclaimer := DISCLAIMER }) := by
  rintro ⟨h1, -⟩
  rw [infer_federal_rate_eq] at h1
  norm_num at h1

/-- C1 (amended): for amount 1000, state `CA` with state rate 0.0, estimate
50000 and no explicit federal rate, the inferred federal rate is 0.22 and
`calculate_tax_reserve` returns self-employment tax 153.00, federal tax
220.00, state tax 0.00, recommended reserve 373.00 and usable cash 627.00. -/
theorem C1_amended_example :
    infer_federal_rate 50000 = 22 / 100 ∧
    calculate_tax_reserve exampleStateRates exampleRequest =
      Except.ok
        { gross_income := 1000, self_employment_tax := 153, federal_tax := 220,
          state_tax := 0, recommended_reserve := 373, usable_cash := 627,
          disclaimer := DISCLAIMER } :=
  ⟨by rw [infer_federal_rate_eq]; norm_num, calculate_example_eval⟩

/-- C2: for every non-negative estimate the inferred federal rate is the
rate of the first bracket (ascending threshold order) whose threshold is at
least the estimate, thresholds themselves included; in particular 11000.00
gives 0.10, 11000.01 gives 0.12 and 1000000 gives 0.24. -/
theorem C2_first_bracket_boundary_inclusive :
    (∀ e : ℚ, 0 ≤ e → infer_federal_rate e = firstBracketRateSpec e) ∧
    infer_federal_rate 11000 = 10 / 100 ∧
    infer_federal_rate (1100001 / 100) = 12 / 100 ∧
    infer_federal_rate 1000000 = 24 / 100 := by
  refine ⟨fun e _ => by rw [infer_federal_rate_eq, firstBracketRateSpec], ?_, ?_, ?_⟩ <;>
    (rw [infer_federal_rate_eq]; norm_num)

/-- Witness for C2 at estimate 50000. -/
theorem C2_witness :
    infer_federal_rate 50000 = firstBracketRateSpec 50000 :=
  C2_first_bracket_boundary_inclusive.1 50000 (by norm_num)

/-- C3: federal-rate precedence in `calculate_tax_reserve` — an explicit
rate is used verbatim even when an estimate is also present; with no
explicit rate an estimate is run through bracket inference; with neither,
the rate defaults to 0.24.  The rate used is observed through the
`federal_tax` field, which is always `round_currency (amount * rate)`. -/
theorem C3_federal_rate_precedence (rates : List (String × ℚ)) (amount : ℚ)
    (st : String) (r e : ℚ) (est : Option ℚ) (h : 0 ≤ amount) :
    (∃ resp, calculate_tax_reserve rates ⟨amount, st, some r, est⟩ = Except.ok resp ∧
       resp.federal_tax = round_currency (amount * r)) ∧
    (∃ resp, calculate_tax_reserve rates ⟨amount, st, none, some e⟩ = Except.ok resp ∧
       resp.federal_tax = round_currency (amount * infer_federal_rate e)) ∧
    (∃ resp, calculate_tax_reserve rates ⟨amount, st, none, none⟩ = Except.ok resp ∧
       resp.federal_tax = round_currency (amount * (24 / 100))) := by
  refine ⟨?_, ?_, ?_⟩ <;> rw [calculate_tax_reserve, if_neg (not_lt.2 h)]
  · exact ⟨_, rfl, rfl⟩
  · exact ⟨_, rfl, rfl⟩
  · exact ⟨_, rfl, by rw [federal_brackets_last]⟩

/-- Witness for C3: amount 1000, explicit rate 1/2 beside estimate 5. -/
theorem C3_witness :
    (∃ resp, calculate_tax_reserve [] ⟨1000, "", some (1/2), some 5⟩ = Except.ok resp ∧
       resp.federal_tax = round_currency (1000 * (1/2))) ∧
    (∃ resp, calculate_tax_reserve [] ⟨1000, "", none, some 5⟩ = Except.ok resp ∧
       resp.federal_tax = round_currency (1000 * infer_federal_rate 5)) ∧
    (∃ resp, calculate_tax_reserve [] ⟨1000, "", none, none⟩ = Except.ok resp ∧
       resp.federal_tax = round_currency (1000 * (24 / 100))) :=
  C3_federal_rate_precedence [] 1000 "" (1/2) 5 (some 5) (by norm_num)

/-- C4: for every input with non-negative amount the calculation succeeds
and its result satisfies `recommended_reserve = round(se + fed + state, 2)`
with each of the three taxes already rounded to two decimals (a fixed point
of `round_currency`), and `usable_cash = round(amount − reserve, 2)`;
moreover `usable_cash` can be negative while the calculation still
succeeds (no error). -/
theorem C4_reserve_and_usable_cash_invariant :
    (∀ (rates : List (String × ℚ)) (p : TaxCalculationRequest), 0 ≤ p.amount →
      ∃ r, calculate_tax_reserve rates p = Except.ok r ∧
        round_currency r.self_employment_tax = r.self_employment_tax ∧
        round_currency r.federal_tax = r.federal_tax ∧
        round_currency r.state_tax = r.state_tax ∧
        r.recommended_reserve =
          round_currency (r.self_employment_tax + r.federal_tax + r.state_tax) ∧
        r.usable_cash = round_currency (p.amount - r.recommended_reserve)) ∧
    (∃ r, calculate_tax_reserve [] ⟨1000, "", some 1, none⟩ = Except.ok r ∧
       r.usable_cash < 0) := by
  constructor
  · intro rates p h
    rw [calculate_tax_reserve, if_neg (not_lt.2 h)]
    exact ⟨_, rfl, round_currency_idem _, round_currency_idem _, round_currency_idem _,
      rfl, rfl⟩
  · refine ⟨⟨1000, 153, 1000, 0, 1153, -153, DISCLAIMER⟩, ?_, by norm_num⟩
    rw [calculate_tax_reserve]
    norm_num [SELF_EMPLOYMENT_TAX_RATE, round_currency, roundHalfToEven, List.lookup]

/-- Witness for C4 at amount 5 with an empty state table. -/
theorem C4_witness :
    ∃ r, calculate_tax_reserve [] ⟨5, "", none, none⟩ = Except.ok r ∧
      round_currency r.self_employment_tax = r.self_employment_tax ∧
      round_currency r.federal_tax = r.federal_tax ∧
      round_currency r.state_tax = r.state_tax ∧
      r.recommended_reserve =
        round_currency (r.self_employment_tax + r.federal_tax + r.state_tax) ∧
      r.usable_cash =
        round_currency ((⟨5, "", none, none⟩ : TaxCalculationRequest).amount -
          r.recommended_reserve) :=
  C4_reserve_and_usable_cash_invariant.1 [] ⟨5, "", none, none⟩ (by norm_num)

/-- C5: a negative amount makes `calculate_tax_reserve` fail up front with
the validation error and produce no result, and the schema-level
construction of the request likewise rejects it, so no partial computation
is ever exposed. -/
theorem C5_negative_amount_rejected (rates : List (String × ℚ))
    (p : TaxCalculationRequest) (h : p.amount < 0) :
    calculate_tax_reserve rates p = Except.error "Income amount cannot be negative." ∧
    mkTaxCalculationRequest p.amount p.state p.federal_rate p.annual_income_estimate =
      none := by
  constructor
  · rw [calculate_tax_reserve, if_pos h]
  · rw [mkTaxCalculationRequest, if_pos h]

/-- Witness for C5 at amount −1. -/
theorem C5_witness :
    calculate_tax_reserve [] ⟨-1, "", none, none⟩ =
      Except.error "Income amount cannot be negative." ∧
    mkTaxCalculationRequest (-1) "" none none = none := by
  have h := C5_negative_amount_rejected [] ⟨-1, "", none, none⟩ (by norm_num)
  exact h

/-- C6: whenever the (normalized) state code is absent from the state-rate
table, the computed state tax is 0.0. -/
theorem C6_unknown_state_zero_tax (rates : List (String × ℚ))
    (p : TaxCalculationRequest) (h0 : 0 ≤ p.amount)
    (h : rates.lookup p.state = none) :
    ∃ r, calculate_tax_reserve rates p = Except.ok r ∧ r.state_tax = 0 := by
  rw [calculate_tax_reserve, if_neg (not_lt.2 h0)]
  exact ⟨_, rfl, by simp [h, round_currency_zero]⟩

/-- Witness for C6: state `ZZ` against the empty table. -/
theorem C6_witness :
    ∃ r, calculate_tax_reserve [] ⟨1000, "ZZ", none, none⟩ = Except.ok r ∧
      r.state_tax = 0 :=
  C6_unknown_state_zero_tax [] ⟨1000, "ZZ", none, none⟩ (by norm_num) rfl

/-- C7: the state-rate listing returns exactly the (code, display name,
rate) rows of the state-rate table — a permutation of the mapped table —
sorted by display name in ascending order, and any code without a mapped
display name uses the code itself as its name. -/
theorem C7_state_listing_sorted (rates : List (String × ℚ))
    (names : List (String × String)) :
    (list_state_tax_rates rates names).Perm
      (rates.map (fun cr =>
        { code := cr.1, name := (names.lookup cr.1).getD cr.1, rate := cr.2 })) ∧
    (list_state_tax_rates rates names).Pairwise
      (fun a b : StateTaxRate => a.name ≤ b.name) ∧
    ∀ s ∈ list_state_tax_rates rates names,
      names.lookup s.code = none → s.name = s.code := by
  refine ⟨List.mergeSort_perm _ _, ?_, ?_⟩
  · have hs := @List.sorted_mergeSort StateTaxRate
      (fun a b : StateTaxRate => a.name ≤ b.name)
      (fun a b c h1 h2 => by
        simp only [decide_eq_true_eq] at h1 h2 ⊢
        exact le_trans h1 h2)
      (fun a b => by simpa using le_total a.name b.name)
      (rates.map (fun cr =>
        { code := cr.1, name := (names.lookup cr.1).getD cr.1, rate := cr.2 }))
    exact hs.imp (fun h => by simpa using h)
  · intro s hs hnone
    have hmem : s ∈ rates.map (fun cr =>
        ({ code := cr.1, name := (names.lookup cr.1).getD cr.1,
           rate := cr.2 } : StateTaxRate)) := by
      simpa [list_state_tax_rates] using hs
    obtain ⟨cr, -, rfl⟩ := List.mem_map.mp hmem
    have hn : names.lookup cr.1 = none := hnone
    show (names.lookup cr.1).getD cr.1 = cr.1
    rw [hn]
    rfl

/-- Witness for C7: `TX` has no display name and keeps its code. -/
theorem C7_witness :
    (list_state_tax_rates [("TX", 0), ("CA", 5 / 100)] [("CA", "California")]).Pairwise
      (fun a b : StateTaxRate => a.name ≤ b.name) ∧
    ({ code := "TX", name := "TX", rate := 0 } : StateTaxRate).name = "TX" := by
  refine ⟨(C7_state_listing_sorted _ _).2.1, ?_⟩
  refine (C7_state_listing_sorted [("TX", 0), ("CA", 5 / 100)] [("CA", "California")]).2.2
    ⟨"TX", "TX", 0⟩ ?_ rfl
  simp [list_state_tax_rates, List.lookup]

/-- C8: bracket inference is monotone — a larger (non-negative) estimate
never gets a smaller inferred federal rate. -/
theorem C8_infer_monotonic (a b : ℚ) (h0 : 0 ≤ a) (hab : a ≤ b) :
    infer_federal_rate a ≤ infer_federal_rate b := by
  rw [infer_federal_rate_eq, infer_federal_rate_eq]
  split_ifs <;> norm_num <;> linarith

/-- Witness for C8 at estimates 1 and 2. -/
theorem C8_witness : infer_federal_rate 1 ≤ infer_federal_rate 2 :=
  C8_infer_monotonic 1 2 (by norm_num) (by norm_num)

/-- C9: the request validator both upper-cases and strips the state code —
every successfully constructed request carries `s.upper().strip()` as its
state, the input `" ca "` normalizes to `"CA"`, and the rate lookup in the
calculation uses that normalized code. -/
theorem C9_state_normalization :
    (∀ (amount : ℚ) (s : String) (fr est : Option ℚ) (req : TaxCalculationRequest),
        mkTaxCalculationRequest amount s fr est = some req →
        req.state = pyStrip (pyUpper s)) ∧
    normalize_state " ca " = "CA" ∧
    (∃ req, mkTaxCalculationRequest 1000 " ca " none none = some req ∧
       req.state = "CA" ∧
       ∃ r, calculate_tax_reserve [("CA", 4 / 100)] req = Except.ok r ∧
         r.state_tax = 40) := by
  refine ⟨?_, by decide, ?_⟩
  · intro amount s fr est req h
    rw [mkTaxCalculationRequest] at h
    split_ifs at h
    cases h
    rfl
  · refine ⟨⟨1000, "CA", none, none⟩, by decide, rfl, ?_⟩
    rw [calculate_tax_reserve]
    norm_num [SELF_EMPLOYMENT_TAX_RATE, round_currency, roundHalfToEven, List.lookup,
      infer_federal_rate_eq]

/-- Witness for C9 on the raw state string `" tx "`. -/
theorem C9_witness :
    (⟨5, "TX", none, none⟩ : TaxCalculationRequest).state = pyStrip (pyUpper " tx ") :=
  C9_state_normalization.1 5 " tx " none none ⟨5, "TX", none, none⟩ (by decide)

/-- C10: bracket inference is total and the post-loop defensive fallback is
unreachable — for every non-negative estimate the scan itself finds a
bracket (the final threshold is unbounded), and the returned rate is one of
0.10, 0.12, 0.22, 0.24, hence within [0, 1]. -/
theorem C10_infer_total_in_range (e : ℚ) (h : 0 ≤ e) :
    (findBracketRate e FEDERAL_BRACKETS).isSome = true ∧
    (infer_federal_rate e = 10 / 100 ∨ infer_federal_rate e = 12 / 100 ∨
     infer_federal_rate e = 22 / 100 ∨ infer_federal_rate e = 24 / 100) ∧
    0 ≤ infer_federal_rate e ∧ infer_federal_rate e ≤ 1 := by
  refine ⟨?_, ?_, ?_, ?_⟩
  · simp only [findBracketRate, FEDERAL_BRACKETS, incomeLeThreshold]
    split_ifs <;> simp
  · rw [infer_federal_rate_eq]; split_ifs <;> norm_num
  · rw [infer_federal_rate_eq]; split_ifs <;> norm_num
  · rw [infer_federal_rate_eq]; split_ifs <;> norm_num

/-- Witness for C10 at estimate 0. -/
theorem C10_witness :
    (findBracketRate 0 FEDERAL_BRACKETS).isSome = true ∧
    (infer_federal_rate 0 = 10 / 100 ∨ infer_federal_rate 0 = 12 / 100 ∨
     infer_federal_rate 0 = 22 / 100 ∨ infer_federal_rate 0 = 24 / 100) ∧
    0 ≤ infer_federal_rate 0 ∧ infer_federal_rate 0 ≤ 1 :=
  C10_infer_total_in_range 0 le_rfl
